import Mathlib

/-!
Shallow embedding of the Live Share collaborative session layer of the
`vscode-python` repository: the host-side execution peer
(`src/client/datascience/jupyter/liveshare/hostJupyterExecution.ts`) and the
mock collaboration API used by its tests
(`src/test/datascience/mockLiveShare.ts`).

TypeScript async methods are embedded as pure functions: a resolved promise
value becomes the returned value, `undefined` becomes `Option.none`, a thrown
`Error` becomes `Except.error` carrying the message, and mutation of instance
fields becomes explicit state passing. Side effects on the collaboration
platform (`shareServer` calls, `Disposable.dispose` invocations) are recorded
in explicit logs inside the state so that theorems can talk about them.
-/

set_option autoImplicit false

namespace VSP

/-! ## Roles and sessions (`vsls.Role`, `vsls.Session`) -/

/-- The `vsls.Role` enumeration: `None`, `Host`, `Guest`. -/
inductive Role where
  | None
  | Host
  | Guest
deriving DecidableEq, Repr

/-- The part of a `vsls.Session` that the embedded code inspects: its role. -/
structure Session where
  role : Role
deriving DecidableEq, Repr

/-- The part of the `vsls.LiveShare` api object that `portForwardServer`
inspects: `api.session` (which may be absent/falsy). A `none` value of
`Option Api` models a null api ("no active session"). -/
structure Api where
  session : Option Session
deriving DecidableEq, Repr

/-! ## URIs (model of the `vscode.Uri` objects the mock manipulates) -/

/-- Model of a `vscode.Uri`: the fields read by `mockLiveShare.ts`
(`scheme`, `fsPath`, `fragment`). -/
structure Uri where
  scheme : String
  fsPath : String
  fragment : String
deriving DecidableEq, Repr

/-- Model of `Uri.toString()` as used in template strings such as
`` `Not a workspace file URI: ${localUri}` ``. -/
def uriToString (u : Uri) : String :=
  u.scheme ++ ":" ++ u.fsPath

/-- Model of node `path.basename`: the component after the last `/`. -/
def basename (p : String) : String :=
  match (p.splitOn "/").getLast? with
  | some s => s
  | none => p

/-- Model of node `path.join(a, b)`. -/
def pathJoin (a b : String) : String :=
  a ++ "/" ++ b

/-- Split a character list at the first colon: scheme characters before it,
path characters after it. -/
def splitScheme : List Char → List Char × List Char
  | [] => ([], [])
  | c :: rest =>
    if c = ':' then ([], rest)
    else
      let (a, b) := splitScheme rest
      (c :: a, b)

/-- Model of `vscode.Uri.parse`: the scheme is everything before the first
colon, the rest is the path. -/
def uriParse (s : String) : Uri :=
  let (scheme, path) := splitScheme s.toList
  ⟨⟨scheme⟩, ⟨path⟩, ""⟩

/-- Model of `vscode.Uri.file`: a `file`-scheme Uri for the given path. -/
def uriFile (p : String) : Uri :=
  ⟨"file", p, ""⟩

/-- A JavaScript value passed where a `Uri` is expected: either an actual
`Uri` object, or any other value together with its truthiness (`undefined`,
`null`, `0`, `''` are falsy; other non-Uri values may be truthy). -/
inductive JsArg where
  | uriVal (u : Uri)
  | nonUri (truthy : Bool)
deriving DecidableEq, Repr

/-- JavaScript truthiness of a `JsArg`; an object (hence a `Uri`) is always
truthy. -/
def JsArg.isFalsy : JsArg → Bool
  | .uriVal _ => false
  | .nonUri truthy => !truthy

/-! ## `checkArg` (mockLiveShare.ts lines 52-70), specialised to `type === 'uri'`,
the only type the embedded call sites use. -/

/-- `checkArg(value, name, 'uri')`: throws "Argument 'name' is required." on a
falsy value, "Argument 'name' must be a Uri object." on a truthy non-Uri;
otherwise the value is the Uri. -/
def checkArgUri (value : JsArg) (name : String) : Except String Uri :=
  if value.isFalsy then
    .error ("Argument \x27" ++ name ++ "\x27 is required.")
  else
    match value with
    | .uriVal u => .ok u
    | .nonUri _ => .error ("Argument \x27" ++ name ++ "\x27 must be a Uri object.")

/-! ## `MockLiveShare.convertLocalUriToShared` (lines 153-172) and
`convertSharedUriToLocal` (lines 173-188) -/

/-- `MockLiveShare.convertLocalUriToShared(localUri)`. The caller's session
role is `this.session.role` (in the mock the session is the instance itself,
so this is the instance's `_role`). -/
def convertLocalUriToShared (role : Role) (localUri : JsArg) : Except String Uri :=
  match checkArgUri localUri "localUri" with
  | .error e => .error e
  | .ok u =>
    if role ≠ Role.Host then
      .error "Only the host role can convert shared URIs."
    else if u.scheme = "vsls" then
      .error ("URI is already a vsls URI: " ++ uriToString u)
    else if u.scheme ≠ "file" then
      .error ("Not a workspace file URI: " ++ uriToString u)
    else
      .ok (uriParse ("vsls:" ++ basename u.fsPath))

/-- `MockLiveShare.convertSharedUriToLocal(sharedUri)`. `EXTENSION_ROOT_DIR`
comes from `client/constants` (outside the embedded sources) and is passed as
the `rootDir` argument. -/
def convertSharedUriToLocal (rootDir : String) (role : Role) (sharedUri : JsArg) :
    Except String Uri :=
  match checkArgUri sharedUri "sharedUri" with
  | .error e => .error e
  | .ok u =>
    if role ≠ Role.Host then
      .error "Only the host role can convert shared URIs."
    else if u.scheme ≠ "vsls" then
      .error ("Not a shared URI: " ++ uriToString u)
    else
      .ok (uriFile (pathJoin rootDir u.fragment))

/-! ## JavaScript `Map` on string keys, as an association list

`Map.set` replaces the value of an existing key in place (keeping its
position) and appends a fresh key; `Map.get` returns the value or
`undefined`; `Map.delete` removes the key. -/

/-- `Map.set(k, v)` on an association list. -/
def mapSet {β : Type} (k : String) (v : β) : List (String × β) → List (String × β)
  | [] => [(k, v)]
  | (k', v') :: rest => if k' = k then (k, v) :: rest else (k', v') :: mapSet k v rest

/-- `Map.get(k)` on an association list. -/
def mapGet {β : Type} (k : String) : List (String × β) → Option β
  | [] => none
  | (k', v') :: rest => if k' = k then some v' else mapGet k rest

/-- `Map.delete(k)` on an association list. -/
def mapDelete {β : Type} (k : String) (m : List (String × β)) : List (String × β) :=
  m.filter (fun p => !(p.1 = k : Bool))

/-! ## `MockLiveService` (mockLiveShare.ts lines 16-48)

A request handler resolves its promise to a value or to `undefined`
(`Option V`); a notify handler produces some observable effect (`W`).
Cancellation tokens are threaded through in the source but never consulted by
the mock, so they are elided. -/

/-- The state of one `MockLiveService`: its name, availability flag, and the
two handler maps. -/
structure MockLiveService (V W : Type) where
  name : String
  isServiceAvailable : Bool
  requestHandlers : List (String × (List V → Option V))
  notifyHandlers : List (String × (V → W))

/-- `new MockLiveService(name)`: empty handler maps, available. -/
def MockLiveService.new (V W : Type) (name : String) : MockLiveService V W :=
  ⟨name, true, [], []⟩

/-- `MockLiveService.request(name, args)`: look the handler up; if present,
the call resolves to the handler's result, otherwise the method falls off the
end and the caller receives `undefined` (no exception is ever raised: the
function is total). -/
def MockLiveService.request {V W : Type} (svc : MockLiveService V W)
    (name : String) (args : List V) : Option V :=
  match mapGet name svc.requestHandlers with
  | some handler => handler args
  | none => none

/-- `MockLiveService.onRequest(name, handler)`. -/
def MockLiveService.onRequest {V W : Type} (svc : MockLiveService V W)
    (name : String) (handler : List V → Option V) : MockLiveService V W :=
  { svc with requestHandlers := mapSet name handler svc.requestHandlers }

/-- `MockLiveService.onNotify(name, handler)`. -/
def MockLiveService.onNotify {V W : Type} (svc : MockLiveService V W)
    (name : String) (handler : V → W) : MockLiveService V W :=
  { svc with notifyHandlers := mapSet name handler svc.notifyHandlers }

/-- `MockLiveService.notify(name, args)`: fire the handler if one is
registered, producing its effect; otherwise the notification is dropped:
no handler runs, no error, no other effect (`none`). -/
def MockLiveService.notify {V W : Type} (svc : MockLiveService V W)
    (name : String) (args : V) : Option W :=
  match mapGet name svc.notifyHandlers with
  | some handler => some (handler args)
  | none => none

/-! ## The static service registry (`MockLiveShare.services`, lines 75 and
140-152)

`MockLiveShare.services` is a process-wide `Map<string, MockLiveService>`.
To express "the same channel instance" each created service carries an
allocation number (`nextId`): two services are the same JavaScript object
exactly when their allocation numbers agree. -/

/-- The static state of the mock registry: the allocation counter and the
name-to-service map (each service paired with its allocation number). -/
structure ServiceRegistry (V W : Type) where
  nextId : Nat
  services : List (String × (Nat × MockLiveService V W))

/-- The registry at process start. -/
def ServiceRegistry.empty (V W : Type) : ServiceRegistry V W :=
  ⟨0, []⟩

/-- `MockLiveShare.shareService(name)`: create the service if the map does
not hold the name yet, then return the map's entry. -/
def ServiceRegistry.shareService {V W : Type} (r : ServiceRegistry V W)
    (name : String) : (Nat × MockLiveService V W) × ServiceRegistry V W :=
  match mapGet name r.services with
  | some entry => (entry, r)
  | none =>
    let entry := (r.nextId, MockLiveService.new V W name)
    (entry, ⟨r.nextId + 1, mapSet name entry r.services⟩)

/-- `MockLiveShare.unshareService(name)`: delete the map entry. -/
def ServiceRegistry.unshareService {V W : Type} (r : ServiceRegistry V W)
    (name : String) : ServiceRegistry V W :=
  ⟨r.nextId, mapDelete name r.services⟩

/-- `MockLiveShare.getSharedService(name)`: the map's entry, or `undefined`
when the name is not shared. -/
def ServiceRegistry.getSharedService {V W : Type} (r : ServiceRegistry V W)
    (name : String) : Option (Nat × MockLiveService V W) :=
  mapGet name r.services

/-- A request issued against the channel registered under `svcName`: the
caller obtains the proxy via `getSharedService`; when the lookup yields no
service (the name was unshared) no handler can run and the call carries no
result. -/
def ServiceRegistry.request {V W : Type} (r : ServiceRegistry V W)
    (svcName reqName : String) (args : List V) : Option V :=
  match r.getSharedService svcName with
  | some (_, svc) => svc.request reqName args
  | none => none

/-- A notification issued against the channel registered under `svcName`;
as with `ServiceRegistry.request`, an unshared name reaches no handler and
has no effect. -/
def ServiceRegistry.notify {V W : Type} (r : ServiceRegistry V W)
    (svcName ntfName : String) (args : V) : Option W :=
  match r.getSharedService svcName with
  | some (_, svc) => svc.notify ntfName args
  | none => none

/-! ## `MockLiveShare` peer tracking (lines 73-92)

Every `new MockLiveShare(role)` pushes the new instance onto the static
`others` array and then calls `f.onPeerConnected(this)` on every instance in
`others` (the new one included). `onPeerConnected` pushes the peer and fires
the peers-changed event only when the peer's role differs from the
instance's own role. Roles are immutable, so a peer reference is embedded as
the pair (allocation number, role). -/

/-- One `MockLiveShare` instance: its allocation number, immutable role,
`currentPeers` array (peer references as id-role pairs) and the number of
peers-changed events it has fired. -/
structure MockInstance where
  instId : Nat
  role : Role
  currentPeers : List (Nat × Role)
  peersChangedFired : Nat
deriving DecidableEq, Repr

/-- The static `MockLiveShare.others` array plus the allocator for instance
identities. -/
structure MockWorld where
  nextId : Nat
  others : List MockInstance
deriving DecidableEq, Repr

/-- The process state before any `MockLiveShare` is constructed. -/
def MockWorld.empty : MockWorld := ⟨0, []⟩

/-- `MockLiveShare.onPeerConnected(peer)`: push the peer and fire the
peers-changed event exactly when the peer's role differs from this
instance's role. -/
def MockInstance.onPeerConnected (self : MockInstance) (peerId : Nat)
    (peerRole : Role) : MockInstance :=
  if peerRole ≠ self.role then
    { self with
        currentPeers := self.currentPeers ++ [(peerId, peerRole)]
        peersChangedFired := self.peersChangedFired + 1 }
  else
    self

/-- The `MockLiveShare` constructor: append the new instance to `others`,
then deliver `onPeerConnected(this)` to every instance in `others`
(the new instance receives its own connection notification and ignores it,
its role being its own). -/
def MockWorld.newMockLiveShare (w : MockWorld) (role : Role) : MockWorld :=
  let inst : MockInstance := ⟨w.nextId, role, [], 0⟩
  let others := w.others ++ [inst]
  ⟨w.nextId + 1, others.map (fun f => f.onPeerConnected w.nextId role)⟩

/-- A world built by a sequence of `MockLiveShare` constructions. -/
def MockWorld.build (roles : List Role) : MockWorld :=
  roles.foldl MockWorld.newMockLiveShare MockWorld.empty

/-- The invariant maintained by construction: instance identities stay below
the allocator, and every recorded peer has a different role and a different
identity than its owner. -/
def MockWorld.Inv (w : MockWorld) : Prop :=
  (∀ inst ∈ w.others, inst.instId < w.nextId) ∧
  (∀ inst ∈ w.others, ∀ pr ∈ inst.currentPeers, pr.2 ≠ inst.role ∧ pr.1 ≠ inst.instId)

/-! ## Notebook server connections (`IConnection`, `INotebookServer`)

`IConnection.dispose` is a function in the source; in the embedding it is a
`DisposeAction`: either the no-op (`noop` from `common/utils/misc`) or a real
disposal of a host-side resource identified by a number. -/

/-- What a connection's `dispose` field does when invoked. -/
inductive DisposeAction where
  | noop
  | real (resourceId : Nat)
deriving DecidableEq, Repr

/-- `IConnection`: the fields `hostJupyterExecution.ts` reads and builds
(`baseUrl`, `token`, `localLaunch`, `dispose`). -/
structure Connection where
  baseUrl : String
  token : String
  localLaunch : Bool
  dispose : DisposeAction
deriving DecidableEq, Repr

/-- An `INotebookServer` handle as seen by `hostJupyterExecution.ts`: an
identity (to tell handles apart) and the result of `getConnectionInfo()`
(which the source checks for undefined). -/
structure NotebookServer where
  serverId : Nat
  connInfo : Option Connection
deriving DecidableEq, Repr

/-! ## Server options and the `ServerCache`

`INotebookServerOptions` and `serverCache.ts` are part of this repository
but not among the embedded sources (only their caller
`hostJupyterExecution.ts` is). They are modelled from the spec. -/

/-- Modelled from the spec: `INotebookServerOptions` (not under the embedded
sources). Per §4.3 an option set has unset fields — working directory,
whether to launch locally vs. use an already-running remote, identity
token — that `generateDefaultOptions` fills in from configuration. -/
structure NotebookServerOptions where
  workingDir : Option String
  localLaunch : Option Bool
  token : Option String
deriving DecidableEq, Repr

/-- Modelled from the spec: the canonical (fully defaulted) form of an option
set, used as the cache key; option sets that canonicalize equal are treated
as identical (§4.3). -/
structure CanonOptions where
  workingDir : String
  localLaunch : Bool
  token : String
deriving DecidableEq, Repr

/-- Modelled from the spec: the workspace/configuration settings that
`generateDefaultOptions` reads its defaults from (§4.3, §6). -/
structure CacheConfig where
  defaultWorkingDir : String
  defaultLocalLaunch : Bool
  defaultToken : String
deriving DecidableEq, Repr

/-- Modelled from the spec: `ServerCache.generateDefaultOptions(options)`
fills in unset fields from current workspace/configuration settings without
mutating the caller's input; an absent option set maps to the generated
default configuration (§4.3). -/
def generateDefaultOptions (cfg : CacheConfig) :
    Option NotebookServerOptions → CanonOptions
  | none => ⟨cfg.defaultWorkingDir, cfg.defaultLocalLaunch, cfg.defaultToken⟩
  | some o =>
    ⟨o.workingDir.getD cfg.defaultWorkingDir,
     o.localLaunch.getD cfg.defaultLocalLaunch,
     o.token.getD cfg.defaultToken⟩

/-- One cache entry: the canonical key, the live handle, and the data the
disposal callback registered by `connectToNotebookServer` closed over (the
forwarded port — `-1` when none was extracted — and the shared-server
disposable, if any). -/
structure CacheEntry where
  key : CanonOptions
  server : NotebookServer
  cbPort : Int
  cbDisposable : Option Nat
deriving DecidableEq, Repr

/-- Modelled from the spec: `ServerCache` holds at most one entry per
canonical key (§4.3). -/
structure ServerCache where
  entries : List CacheEntry
deriving DecidableEq, Repr

/-- Modelled from the spec: `ServerCache.get(options)` canonicalizes the
options into a key and returns the cached handle if present, otherwise
`undefined` (§4.3); after disposal the cache is empty, so `get` reports no
entry rather than throwing. -/
def ServerCache.get (cfg : CacheConfig) (c : ServerCache)
    (options : Option NotebookServerOptions) : Option NotebookServer :=
  (c.entries.find? (fun e => decide (e.key = generateDefaultOptions cfg options))).map
    (fun e => e.server)

/-- Replace the entry holding `key`, or append a fresh one: keeps at most one
entry per key. -/
def setEntry (e : CacheEntry) : List CacheEntry → List CacheEntry
  | [] => [e]
  | e' :: rest => if e'.key = e.key then e :: rest else e' :: setEntry e rest

/-- Modelled from the spec: `ServerCache.set(handle, disposalCallback,
options)` stores the handle under the canonical key (§4.3). -/
def ServerCache.set (cfg : CacheConfig) (c : ServerCache) (server : NotebookServer)
    (cbPort : Int) (cbDisposable : Option Nat)
    (options : Option NotebookServerOptions) : ServerCache :=
  ⟨setEntry ⟨generateDefaultOptions cfg options, server, cbPort, cbDisposable⟩ c.entries⟩

/-- At most one entry per canonical key. -/
def ServerCache.KeysDistinct (c : ServerCache) : Prop :=
  c.entries.Pairwise (fun e e' => e.key ≠ e'.key)

/-! ## `HostJupyterExecution` (hostJupyterExecution.ts)

The instance fields `sharedServers`, `fowardedPorts` (sic) and `serverCache`,
plus explicit logs of the side effects the claims talk about: every
`api.shareServer` call (by port), every `Disposable.dispose()` invocation
(by disposable identity), every invocation of `super.connectToNotebookServer`
(the actual server launch), and the remote request names registered on the
shared service. -/

/-- The mutable state of a `HostJupyterExecution` together with its effect
logs. -/
structure HostState where
  sharedServers : List Nat
  fowardedPorts : List Int
  serverCache : ServerCache
  nextDisposableId : Nat
  shareServerCalls : List Int
  disposed : List Nat
  createCalls : Nat
  registeredHandlers : List String
deriving DecidableEq, Repr

/-- A freshly constructed `HostJupyterExecution`: empty lists, empty cache. -/
def HostState.init : HostState :=
  ⟨[], [], ⟨[]⟩, 0, [], [], 0, []⟩

/-- The `api && api.session && api.session.role === vsls.Role.Host` guard of
`portForwardServer`. -/
def isActiveHost : Option Api → Bool
  | some a =>
    match a.session with
    | some sess => sess.role = Role.Host
    | none => false
  | none => false

/-- `HostJupyterExecution.portForwardServer(port)` (lines 159-174): share the
port with guests only when actively hosting (logging the `shareServer` call
and pushing the fresh disposable onto `sharedServers`); in every case record
the port in `fowardedPorts` unless already present, and return the disposable
(or `undefined`). -/
def portForwardServer (api : Option Api) (port : Int) (s : HostState) :
    HostState × Option Nat :=
  let (s, result) :=
    if isActiveHost api then
      let d := s.nextDisposableId
      ({ s with
          nextDisposableId := d + 1
          shareServerCalls := s.shareServerCalls ++ [port]
          sharedServers := s.sharedServers ++ [d] }, some d)
    else
      (s, none)
  let s :=
    if port ∈ s.fowardedPorts then s
    else { s with fowardedPorts := s.fowardedPorts ++ [port] }
  (s, result)

/-- The request names registered on attach (lines 129-134); the string values
of `LiveShareCommands` live in `datascience/constants.ts`, outside the
embedded sources, so the property names are used. -/
def remoteCommandNames : List String :=
  ["isNotebookSupported", "isImportSupported", "isKernelCreateSupported",
   "isKernelSpecSupported", "connectToNotebookServer", "getUsableJupyterPython"]

/-- `HostJupyterExecution.onAttach(api)` (lines 123-140): with a null api do
nothing; otherwise register the remote request handlers when
`waitForService()` produced a service, then call `portForwardServer` for
every recorded port. -/
def onAttach (api : Option Api) (serviceAvailable : Bool) (s : HostState) :
    HostState :=
  match api with
  | none => s
  | some _ =>
    let s :=
      if serviceAvailable then
        { s with registeredHandlers := s.registeredHandlers ++ remoteCommandNames }
      else s
    s.fowardedPorts.foldl (fun st p => (portForwardServer api p st).1) s

/-- Run one cache entry's disposal callback (the closure built at lines
111-117): drop the captured port from `fowardedPorts` and dispose the captured
shared-server disposable if there is one. -/
def runDisposalCallback (s : HostState) (e : CacheEntry) : HostState :=
  let s := { s with fowardedPorts := s.fowardedPorts.filter (fun p => !(p = e.cbPort : Bool)) }
  match e.cbDisposable with
  | some d => { s with disposed := s.disposed ++ [d] }
  | none => s

/-- Modelled from the spec: `ServerCache.dispose()` (`serverCache.ts` is not
under the embedded sources) invokes every live entry's disposal callback and
leaves the cache empty (§4.3); applied to the host state because the
callbacks mutate it. -/
def disposeServerCache (s : HostState) : HostState :=
  let s := s.serverCache.entries.foldl runDisposalCallback s
  { s with serverCache := ⟨[]⟩ }

/-- `HostJupyterExecution.onDetach(api)` (lines 142-152): dispose every
shared server, clear `sharedServers` and `fowardedPorts`, then dispose the
server cache. (`super.onDetach` lives in `liveShareParticipantMixin.ts`,
outside the embedded sources; it touches none of this state.) -/
def onDetach (s : HostState) : HostState :=
  let s := { s with
    disposed := s.disposed ++ s.sharedServers
    sharedServers := []
    fowardedPorts := [] }
  disposeServerCache s

/-- `HostJupyterExecution.getServer(options)` (lines 154-157). -/
def getServer (cfg : CacheConfig) (s : HostState)
    (options : Option NotebookServerOptions) : Option NotebookServer :=
  ServerCache.get cfg s.serverCache options

/-- `HostJupyterExecution.connectToNotebookServer(options)` (lines 81-121):
return the cached handle when the cache holds one; otherwise launch a server
via `super.connectToNotebookServer` (the `createServer` environment, applied
to the defaulted options; the launch is counted in `createCalls`), port
forward the port extracted from the base url of a locally launched server
(`RegExpValues.ExtractPortRegex` lives in `datascience/constants.ts`, outside
the embedded sources, and is passed as the `extractPort` environment), and
store the result in the cache with a disposal callback closing over the port
and the shared-server disposable. -/
def connectToNotebookServer (cfg : CacheConfig) (api : Option Api)
    (extractPort : String → Option Int)
    (createServer : CanonOptions → Option NotebookServer)
    (options : Option NotebookServerOptions) (s : HostState) :
    HostState × Option NotebookServer :=
  match ServerCache.get cfg s.serverCache options with
  | some result => (s, some result)
  | none =>
    let result := createServer (generateDefaultOptions cfg options)
    let s := { s with createCalls := s.createCalls + 1 }
    let (s, port, sharedServerDisposable) :=
      match result with
      | some srv =>
        match srv.connInfo with
        | some ci =>
          if ci.localLaunch then
            match extractPort ci.baseUrl with
            | some p =>
              let (s', d) := portForwardServer api p s
              (s', p, d)
            | none => (s, (-1 : Int), none)
          else (s, (-1 : Int), none)
        | none => (s, (-1 : Int), none)
      | none => (s, (-1 : Int), none)
    match result with
    | some srv =>
      ({ s with serverCache :=
          ServerCache.set cfg s.serverCache srv port sharedServerDisposable options },
       some srv)
    | none => (s, none)

/-- `HostJupyterExecution.onRemoteConnectToNotebookServer(args)` (lines
195-208): connect to the local server with `args[0]`, and when it yields a
server with connection info, hand the guest `{ baseUrl, token,
localLaunch: false, dispose: noop }`; otherwise resolve with no result. -/
def onRemoteConnectToNotebookServer (cfg : CacheConfig) (api : Option Api)
    (extractPort : String → Option Int)
    (createServer : CanonOptions → Option NotebookServer)
    (args : List NotebookServerOptions) (s : HostState) :
    HostState × Option Connection :=
  let (s', localServer) :=
    connectToNotebookServer cfg api extractPort createServer args.head? s
  match localServer with
  | some srv =>
    match srv.connInfo with
    | some ci =>
      (s', some ⟨ci.baseUrl, ci.token, false, DisposeAction.noop⟩)
    | none => (s', none)
  | none => (s', none)

/-! ## Helper lemmas -/

/-- Looking a key up right after setting it yields the set value. -/
theorem mapGet_mapSet_self {β : Type} (k : String) (v : β) (m : List (String × β)) :
    mapGet k (mapSet k v m) = some v := by
  induction m with
  | nil => simp [mapSet, mapGet]
  | cons p rest ih =>
    by_cases h : p.1 = k
    · simp [mapSet, mapGet, h]
    · simp [mapSet, mapGet, h, ih]

/-- Looking a key up right after deleting it yields nothing. -/
theorem mapGet_mapDelete_self {β : Type} (k : String) (m : List (String × β)) :
    mapGet k (mapDelete k m) = none := by
  induction m with
  | nil => simp [mapDelete, mapGet]
  | cons p rest ih =>
    by_cases h : p.1 = k
    · simpa [mapDelete, mapGet, h] using ih
    · simpa [mapDelete, mapGet, h] using ih

/-- Parsing a string that starts with the literal `vsls:` yields a
`vsls`-scheme Uri. -/
theorem uriParse_vsls_scheme (s : String) :
    (uriParse ("vsls:" ++ s)).scheme = "vsls" := by
  obtain ⟨data⟩ := s
  rfl

/-! ## C8: argument, role and scheme checking in `convertLocalUriToShared` -/

/-- C8: `convertLocalUriToShared` throws "Argument 'localUri' is required." on
a missing (falsy) argument and "Argument 'localUri' must be a Uri object." on
a non-Uri argument; it throws "Only the host role can convert shared URIs."
when the caller's role is not `Host`; for a Host it throws when the Uri's
scheme is already `vsls` and when the scheme is not `file`; and for a
`file`-scheme Uri called by a Host it succeeds with a `vsls`-scheme Uri —
there is no other failure condition. -/
theorem convertLocalUriToShared_spec (role : Role) (arg : JsArg) :
    (arg.isFalsy = true →
      convertLocalUriToShared role arg =
        .error "Argument \x27localUri\x27 is required.") ∧
    (∀ t, arg = JsArg.nonUri t → arg.isFalsy = false →
      convertLocalUriToShared role arg =
        .error "Argument \x27localUri\x27 must be a Uri object.") ∧
    (∀ u, arg = JsArg.uriVal u → role ≠ Role.Host →
      convertLocalUriToShared role arg =
        .error "Only the host role can convert shared URIs.") ∧
    (∀ u, arg = JsArg.uriVal u → role = Role.Host → u.scheme = "vsls" →
      convertLocalUriToShared role arg =
        .error ("URI is already a vsls URI: " ++ uriToString u)) ∧
    (∀ u, arg = JsArg.uriVal u → role = Role.Host → u.scheme ≠ "vsls" →
        u.scheme ≠ "file" →
      convertLocalUriToShared role arg =
        .error ("Not a workspace file URI: " ++ uriToString u)) ∧
    (∀ u, arg = JsArg.uriVal u → role = Role.Host → u.scheme = "file" →
      convertLocalUriToShared role arg =
          .ok (uriParse ("vsls:" ++ basename u.fsPath)) ∧
        (uriParse ("vsls:" ++ basename u.fsPath)).scheme = "vsls") := by
  refine ⟨?_, ?_, ?_, ?_, ?_, ?_⟩
  · intro h
    cases arg with
    | uriVal u => simp [JsArg.isFalsy] at h
    | nonUri t =>
      cases t with
      | false => simp [convertLocalUriToShared, checkArgUri, JsArg.isFalsy]
      | true => simp [JsArg.isFalsy] at h
  · rintro t rfl h
    simp [JsArg.isFalsy] at h
    subst h
    simp [convertLocalUriToShared, checkArgUri, JsArg.isFalsy]
  · rintro u rfl h
    simp [convertLocalUriToShared, checkArgUri, JsArg.isFalsy, h]
  · rintro u rfl rfl h
    simp [convertLocalUriToShared, checkArgUri, JsArg.isFalsy, h]
  · rintro u rfl rfl h1 h2
    simp [convertLocalUriToShared, checkArgUri, JsArg.isFalsy, h1, h2]
  · rintro u rfl rfl h
    refine ⟨?_, uriParse_vsls_scheme _⟩
    simp [convertLocalUriToShared, checkArgUri, JsArg.isFalsy, h]

/-- Witness for C8: on the Host role and the file Uri `a/b.py`, the
conversion succeeds and yields a `vsls`-scheme Uri. -/
theorem convertLocalUriToShared_spec_witness :
    convertLocalUriToShared Role.Host (JsArg.uriVal ⟨"file", "a/b.py", ""⟩) =
        .ok (uriParse ("vsls:" ++ basename (Uri.mk "file" "a/b.py" "").fsPath)) ∧
      (uriParse ("vsls:" ++ basename (Uri.mk "file" "a/b.py" "").fsPath)).scheme =
        "vsls" :=
  (convertLocalUriToShared_spec Role.Host
      (JsArg.uriVal ⟨"file", "a/b.py", ""⟩)).2.2.2.2.2
    ⟨"file", "a/b.py", ""⟩ rfl rfl rfl

/-! ## C10: `convertSharedUriToLocal` requires the Host role and a shared Uri -/

/-- C10: `convertSharedUriToLocal` succeeds exactly when the caller's role is
`Host` and the argument is a Uri whose scheme is `vsls`; in particular every
call by a Guest or None-role caller throws, so a guest can never convert a
shared URI back to a local one through this API. -/
theorem convertSharedUriToLocal_spec (rootDir : String) (role : Role) (arg : JsArg) :
    (∃ v, convertSharedUriToLocal rootDir role arg = .ok v) ↔
      role = Role.Host ∧ ∃ u, arg = JsArg.uriVal u ∧ u.scheme = "vsls" := by
  constructor
  · rintro ⟨v, hv⟩
    cases arg with
    | nonUri t =>
      cases t <;> simp [convertSharedUriToLocal, checkArgUri, JsArg.isFalsy] at hv
    | uriVal u =>
      by_cases hr : role = Role.Host
      · by_cases hs : u.scheme = "vsls"
        · exact ⟨hr, u, rfl, hs⟩
        · simp [convertSharedUriToLocal, checkArgUri, JsArg.isFalsy, hr, hs] at hv
      · simp [convertSharedUriToLocal, checkArgUri, JsArg.isFalsy, hr] at hv
  · rintro ⟨rfl, u, rfl, hs⟩
    exact ⟨uriFile (pathJoin rootDir u.fragment),
      by simp [convertSharedUriToLocal, checkArgUri, JsArg.isFalsy, hs]⟩

/-! ## C3: unregistered request and notify names on a `MockLiveService` -/

/-- C3: a `request` for a name with no registered handler resolves with no
result (and, the embedding being a total function, never throws); a `notify`
for a name with no registered handler is silently dropped: no handler runs,
no error, no other effect. -/
theorem unregistered_request_notify {V W : Type} (svc : MockLiveService V W)
    (reqName ntfName : String) (args : List V) (x : V)
    (hreq : mapGet reqName svc.requestHandlers = none)
    (hntf : mapGet ntfName svc.notifyHandlers = none) :
    svc.request reqName args = none ∧ svc.notify ntfName x = none := by
  constructor
  · simp [MockLiveService.request, hreq]
  · simp [MockLiveService.notify, hntf]

/-- Witness for C3: a freshly created service has no handlers, so a request
and a notify both come back empty. -/
theorem unregistered_request_notify_witness :
    (MockLiveService.new Nat Nat "jupyterExecutionService").request
        "connectToNotebookServer" [] = none ∧
      (MockLiveService.new Nat Nat "jupyterExecutionService").notify
        "serverShutdown" 0 = none :=
  unregistered_request_notify (MockLiveService.new Nat Nat "jupyterExecutionService")
    "connectToNotebookServer" "serverShutdown" [] 0 rfl rfl

/-! ## C7: `shareService` idempotence and `unshareService` removal -/

/-- C7: two sequential `shareService` calls for the same name yield the same
channel instance (same allocation number) and leave the registry unchanged by
the second call; after `unshareService`, `getSharedService` yields nothing
for that name, and a request or notify addressed to the removed channel
reaches no handler and carries no result (a no-op, not a crash). -/
theorem shareService_registry_spec {V W : Type} (r : ServiceRegistry V W)
    (name reqName ntfName : String) (args : List V) (x : V) :
    ((r.shareService name).2.shareService name).1 = (r.shareService name).1 ∧
    ((r.shareService name).2.shareService name).2 = (r.shareService name).2 ∧
    (r.unshareService name).getSharedService name = none ∧
    (r.unshareService name).request name reqName args = none ∧
    (r.unshareService name).notify name ntfName x = none := by
  have hget : (r.unshareService name).getSharedService name = none := by
    simp [ServiceRegistry.unshareService, ServiceRegistry.getSharedService,
      mapGet_mapDelete_self]
  refine ⟨?_, ?_, hget, ?_, ?_⟩
  · cases h : mapGet name r.services with
    | some entry => simp [ServiceRegistry.shareService, h]
    | none => simp [ServiceRegistry.shareService, h, mapGet_mapSet_self]
  · cases h : mapGet name r.services with
    | some entry => simp [ServiceRegistry.shareService, h]
    | none => simp [ServiceRegistry.shareService, h, mapGet_mapSet_self]
  · simp [ServiceRegistry.request, hget]
  · simp [ServiceRegistry.notify, hget]

/-! ## C5: `onDetach` is re-entrant safe -/

/-- A disposal callback leaves `sharedServers` and the cache untouched, and
keeps an empty `fowardedPorts` list empty. -/
theorem runDisposalCallback_fields (s : HostState) (e : CacheEntry) :
    (runDisposalCallback s e).sharedServers = s.sharedServers ∧
    (runDisposalCallback s e).serverCache = s.serverCache ∧
    (s.fowardedPorts = [] → (runDisposalCallback s e).fowardedPorts = []) := by
  refine ⟨?_, ?_, fun hp => ?_⟩ <;> cases h : e.cbDisposable <;>
    simp [runDisposalCallback, h, *]

/-- Running all disposal callbacks leaves `sharedServers` and the cache
untouched and keeps an empty `fowardedPorts` list empty. -/
theorem foldl_runDisposalCallback_fields (l : List CacheEntry) (s : HostState) :
    (l.foldl runDisposalCallback s).sharedServers = s.sharedServers ∧
    (l.foldl runDisposalCallback s).serverCache = s.serverCache ∧
    (s.fowardedPorts = [] → (l.foldl runDisposalCallback s).fowardedPorts = []) := by
  induction l generalizing s with
  | nil => simp
  | cons e rest ih =>
    simp only [List.foldl_cons]
    obtain ⟨h1, h2, h3⟩ := runDisposalCallback_fields s e
    obtain ⟨g1, g2, g3⟩ := ih (runDisposalCallback s e)
    exact ⟨h1 ▸ g1, h2 ▸ g2, fun h => g3 (h3 h)⟩

/-- `onDetach` of a state whose shared-server list, forwarded-port list and
cache are already empty changes nothing. -/
theorem onDetach_of_empty (s : HostState) (h1 : s.sharedServers = [])
    (h2 : s.fowardedPorts = []) (h3 : s.serverCache = ⟨[]⟩) :
    onDetach s = s := by
  obtain ⟨a, b, c, d, e, f, g, i⟩ := s
  simp only at h1 h2 h3
  subst h1; subst h2; subst h3
  simp [onDetach, disposeServerCache]

/-- After `onDetach` the shared-server list, the forwarded-port list and the
server cache are all empty. -/
theorem onDetach_empties (s : HostState) :
    (onDetach s).sharedServers = [] ∧ (onDetach s).fowardedPorts = [] ∧
    (onDetach s).serverCache = ⟨[]⟩ := by
  unfold onDetach disposeServerCache
  obtain ⟨g1, g2, g3⟩ := foldl_runDisposalCallback_fields s.serverCache.entries
    { s with
        disposed := s.disposed ++ s.sharedServers
        sharedServers := []
        fowardedPorts := [] }
  exact ⟨by simpa using g1, by simpa using g3 rfl, rfl⟩

/-- C5: after one `onDetach` the shared-server list, the forwarded-port list
and the server cache are all empty, so a second `onDetach` changes nothing:
in particular it disposes no shared server a second time. -/
theorem onDetach_reentrant (s : HostState) :
    (onDetach s).sharedServers = [] ∧
    (onDetach s).fowardedPorts = [] ∧
    (onDetach s).serverCache = ⟨[]⟩ ∧
    onDetach (onDetach s) = onDetach s ∧
    (onDetach (onDetach s)).disposed = (onDetach s).disposed := by
  obtain ⟨h1, h2, h3⟩ := onDetach_empties s
  have hfix := onDetach_of_empty (onDetach s) h1 h2 h3
  exact ⟨h1, h2, h3, hfix, by rw [hfix]⟩

/-! ## C6: `portForwardServer` while not actively hosting -/

/-- C6: when the process is not an active Host (null api, no session, or a
non-Host role), `portForwardServer` makes no `shareServer` call, pushes no
shared-server disposable, returns `undefined`, and still records the port in
the forwarded-port list without introducing a duplicate. -/
theorem portForwardServer_notHosting (api : Option Api) (port : Int) (s : HostState)
    (h : isActiveHost api = false) :
    portForwardServer api port s =
      ({ s with fowardedPorts :=
          if port ∈ s.fowardedPorts then s.fowardedPorts
          else s.fowardedPorts ++ [port] }, none) ∧
    port ∈ (portForwardServer api port s).1.fowardedPorts ∧
    (s.fowardedPorts.Nodup → (portForwardServer api port s).1.fowardedPorts.Nodup) := by
  have heq : portForwardServer api port s =
      ({ s with fowardedPorts :=
          if port ∈ s.fowardedPorts then s.fowardedPorts
          else s.fowardedPorts ++ [port] }, none) := by
    simp only [portForwardServer, h, Bool.false_eq_true, if_false]
    split <;> simp_all
  refine ⟨heq, ?_, ?_⟩
  · rw [heq]
    by_cases hc : port ∈ s.fowardedPorts <;> simp [hc]
  · intro hnd
    rw [heq]
    by_cases hc : port ∈ s.fowardedPorts <;>
      simp [hc, hnd, List.nodup_append]

/-- Witness for C6: a null api records port 8888 on a fresh host, shares
nothing and returns `undefined`. -/
theorem portForwardServer_notHosting_witness :
    portForwardServer none 8888 HostState.init =
      ({ HostState.init with fowardedPorts :=
          if (8888 : Int) ∈ HostState.init.fowardedPorts then
            HostState.init.fowardedPorts
          else HostState.init.fowardedPorts ++ [8888] }, none) ∧
    (8888 : Int) ∈ (portForwardServer none 8888 HostState.init).1.fowardedPorts ∧
    (HostState.init.fowardedPorts.Nodup →
      (portForwardServer none 8888 HostState.init).1.fowardedPorts.Nodup) :=
  portForwardServer_notHosting none 8888 HostState.init rfl

/-! ## C2: the server cache deduplicates connections -/

/-- Every member of `setEntry e l` is `e` itself or a member of `l`. -/
theorem mem_setEntry {e b : CacheEntry} {l : List CacheEntry}
    (hb : b ∈ setEntry e l) : b = e ∨ b ∈ l := by
  induction l with
  | nil => simpa [setEntry] using hb
  | cons e' rest ih =>
    by_cases hk : e'.key = e.key
    · simp only [setEntry, hk, if_pos] at hb
      rcases List.mem_cons.mp hb with h | h
      · exact .inl h
      · exact .inr (List.mem_cons_of_mem _ h)
    · simp only [setEntry, hk, if_neg, not_false_iff] at hb
      rcases List.mem_cons.mp hb with h | h
      · exact .inr (by simp [h])
      · rcases ih h with h' | h'
        · exact .inl h'
        · exact .inr (List.mem_cons_of_mem _ h')

/-- `setEntry` keeps the keys of the entry list pairwise distinct. -/
theorem pairwise_setEntry (e : CacheEntry) (l : List CacheEntry)
    (h : l.Pairwise (fun a b => a.key ≠ b.key)) :
    (setEntry e l).Pairwise (fun a b => a.key ≠ b.key) := by
  induction l with
  | nil => simp [setEntry]
  | cons e' rest ih =>
    rw [List.pairwise_cons] at h
    by_cases hk : e'.key = e.key
    · simp only [setEntry, hk, if_pos]
      rw [List.pairwise_cons]
      exact ⟨fun b hb => hk ▸ h.1 b hb, h.2⟩
    · simp only [setEntry, hk, if_neg, not_false_iff]
      rw [List.pairwise_cons]
      refine ⟨fun b hb => ?_, ih h.2⟩
      rcases mem_setEntry hb with rfl | hb'
      · exact fun hcon => hk hcon
      · exact h.1 b hb'

/-- `portForwardServer` never touches the server cache. -/
theorem portForwardServer_serverCache (api : Option Api) (port : Int)
    (s : HostState) :
    (portForwardServer api port s).1.serverCache = s.serverCache := by
  simp only [portForwardServer]
  split <;> split <;> rfl

/-- C2: when the server cache already holds a live handle for an option set,
`connectToNotebookServer` returns exactly that handle and leaves the state
untouched — in particular no second server launch happens — and in every
case the call preserves the cache invariant of at most one entry per
canonicalized option key. -/
theorem connectToNotebookServer_cached (cfg : CacheConfig) (api : Option Api)
    (extractPort : String → Option Int)
    (createServer : CanonOptions → Option NotebookServer)
    (options : Option NotebookServerOptions) (s : HostState) :
    (∀ srv, getServer cfg s options = some srv →
      connectToNotebookServer cfg api extractPort createServer options s =
        (s, some srv)) ∧
    (ServerCache.KeysDistinct s.serverCache →
      ServerCache.KeysDistinct
        (connectToNotebookServer cfg api extractPort createServer options s).1.serverCache) := by
  constructor
  · intro srv hsrv
    rw [getServer] at hsrv
    simp [connectToNotebookServer, hsrv]
  · intro hdist
    cases hget : ServerCache.get cfg s.serverCache options with
    | some r => simpa [connectToNotebookServer, hget] using hdist
    | none =>
      rw [connectToNotebookServer]
      simp only [hget]
      cases hres : createServer (generateDefaultOptions cfg options) with
      | none => simpa using hdist
      | some srv =>
        simp only
        cases hci : srv.connInfo with
        | none => exact pairwise_setEntry _ _ hdist
        | some ci =>
          by_cases hl : ci.localLaunch = true
          · simp only [hl, if_pos]
            cases hp : extractPort ci.baseUrl with
            | none => exact pairwise_setEntry _ _ hdist
            | some p =>
              simp only
              have hc := portForwardServer_serverCache api p
                { s with createCalls := s.createCalls + 1 }
              refine pairwise_setEntry _ _ ?_
              simpa [hc] using hdist
          · simp only [Bool.not_eq_true] at hl
            simp only [hl, Bool.false_eq_true, if_false]
            exact pairwise_setEntry _ _ hdist

/-- A configuration for the concrete witnesses. -/
def cfg0 : CacheConfig := ⟨"/workspace", true, "token0"⟩

/-- A concrete notebook server handle for the witnesses, with connection
info as the host sees it (locally launched, live dispose). -/
def srv0 : NotebookServer :=
  ⟨0, some ⟨"http://localhost:8888/", "token0", true, DisposeAction.real 0⟩⟩

/-- A host state whose cache already holds `srv0` under the default
options. -/
def s0 : HostState :=
  { HostState.init with
      serverCache := ⟨[⟨generateDefaultOptions cfg0 none, srv0, 8888, none⟩]⟩ }

/-- Witness for C2: on `s0` the cached handle is returned as-is and the
key-uniqueness invariant carries over. -/
theorem connectToNotebookServer_cached_witness :
    connectToNotebookServer cfg0 none (fun _ => none) (fun _ => none) none s0 =
      (s0, some srv0) ∧
    ServerCache.KeysDistinct
      (connectToNotebookServer cfg0 none (fun _ => none) (fun _ => none) none s0).1.serverCache :=
  ⟨(connectToNotebookServer_cached cfg0 none (fun _ => none) (fun _ => none) none s0).1
      srv0 rfl,
   (connectToNotebookServer_cached cfg0 none (fun _ => none) (fun _ => none) none s0).2
      (by simp [ServerCache.KeysDistinct, s0])⟩

/-! ## C4: the guest-facing connection strips host-only fields -/

/-- C4: the remote "connect to notebook server" handler returns exactly the
local server's base url and token with `localLaunch` set to `false` and the
`dispose` field replaced by the no-op (so the guest cannot dispose the
host's live handle); whenever the local connect yields no server or no
connection info, the handler resolves with no result. -/
theorem onRemoteConnectToNotebookServer_spec (cfg : CacheConfig)
    (api : Option Api) (extractPort : String → Option Int)
    (createServer : CanonOptions → Option NotebookServer)
    (args : List NotebookServerOptions) (s : HostState) :
    onRemoteConnectToNotebookServer cfg api extractPort createServer args s =
      ((connectToNotebookServer cfg api extractPort createServer args.head? s).1,
       ((connectToNotebookServer cfg api extractPort createServer args.head? s).2.bind
          NotebookServer.connInfo).map
         (fun ci => ⟨ci.baseUrl, ci.token, false, DisposeAction.noop⟩)) ∧
    (∀ g, (onRemoteConnectToNotebookServer cfg api extractPort createServer args s).2 =
        some g →
      g.localLaunch = false ∧ g.dispose = DisposeAction.noop) := by
  constructor
  · rw [onRemoteConnectToNotebookServer]
    cases hres : (connectToNotebookServer cfg api extractPort createServer args.head? s).2 with
    | none => simp [hres]
    | some srv =>
      cases hci : srv.connInfo with
      | none => simp [hres, hci]
      | some ci => simp [hres, hci]
  · intro g hg
    rw [onRemoteConnectToNotebookServer] at hg
    cases hres : (connectToNotebookServer cfg api extractPort createServer args.head? s).2 with
    | none => simp [hres] at hg
    | some srv =>
      cases hci : srv.connInfo with
      | none => simp [hres, hci] at hg
      | some ci =>
        simp only [hres, hci] at hg
        cases hg
        exact ⟨rfl, rfl⟩

/-- Witness for C4: on `s0` (the cache holding `srv0`) the guest receives the
cached connection's url and token with `localLaunch := false` and a no-op
dispose. -/
theorem onRemoteConnectToNotebookServer_spec_witness :
    (Connection.mk "http://localhost:8888/" "token0" false DisposeAction.noop).localLaunch =
        false ∧
      (Connection.mk "http://localhost:8888/" "token0" false DisposeAction.noop).dispose =
        DisposeAction.noop :=
  (onRemoteConnectToNotebookServer_spec cfg0 none (fun _ => none) (fun _ => none)
      [] s0).2
    ⟨"http://localhost:8888/", "token0", false, DisposeAction.noop⟩ rfl

/-! ## C1: port forwarding across a detach/attach cycle -/

/-- An api with an active session in the Host role. -/
def apiHost0 : Option Api := some ⟨some ⟨Role.Host⟩⟩

/-- Counterexample to C1 as stated: on a fresh host, forward port 8888 while
actively hosting, then `onDetach`, then `onAttach` with the same live api.
The forwarded-port list is empty after the cycle and the only `shareServer`
call ever made is the original one — the attach re-establishes nothing,
because `onDetach` cleared `fowardedPorts`. -/
theorem detachAttach_loses_forwardedPort :
    (onAttach apiHost0 true
        (onDetach (portForwardServer apiHost0 8888 HostState.init).1)).fowardedPorts =
      [] ∧
    (onAttach apiHost0 true
        (onDetach (portForwardServer apiHost0 8888 HostState.init).1)).shareServerCalls =
      [8888] ∧
    ¬ (8888 : Int) ∈ (onAttach apiHost0 true
        (onDetach (portForwardServer apiHost0 8888 HostState.init).1)).fowardedPorts := by
  refine ⟨rfl, rfl, ?_⟩
  intro h
  simp only [show (onAttach apiHost0 true
      (onDetach (portForwardServer apiHost0 8888 HostState.init).1)).fowardedPorts =
        [] from rfl] at h
  exact List.not_mem_nil _ h

/-- With an active Host api, `portForwardServer` logs exactly one
`shareServer` call for its port. -/
theorem foldl_portForward_shareServerCalls (api : Option Api)
    (h : isActiveHost api = true) (l : List Int) (s : HostState) :
    (l.foldl (fun st p => (portForwardServer api p st).1) s).shareServerCalls =
      s.shareServerCalls ++ l := by
  induction l generalizing s with
  | nil => simp
  | cons p rest ih =>
    simp only [List.foldl_cons]
    rw [ih]
    have hstep : (portForwardServer api p s).1.shareServerCalls =
        s.shareServerCalls ++ [p] := by
      simp only [portForwardServer, h, if_true]
      split <;> rfl
    rw [hstep]
    simp

/-- C1 amended: `onDetach` clears the forwarded-port list, so ports forwarded
before a detach are not re-established by a later attach; what `onAttach`
with an active Host api does re-establish is exactly the ports currently in
the forwarded-port list (those recorded since the last detach, e.g. recorded
by `portForwardServer` while not hosting): it issues one `shareServer` call
per recorded port, in order. -/
theorem onAttach_reshares_recorded_ports (api : Option Api)
    (serviceAvailable : Bool) (s : HostState) (h : isActiveHost api = true) :
    (onDetach s).fowardedPorts = [] ∧
    (onAttach api serviceAvailable s).shareServerCalls =
      s.shareServerCalls ++ s.fowardedPorts := by
  refine ⟨(onDetach_empties s).2.1, ?_⟩
  cases api with
  | none => simp [isActiveHost] at h
  | some a =>
    cases serviceAvailable with
    | false =>
      simpa [onAttach] using
        foldl_portForward_shareServerCalls (some a) h s.fowardedPorts s
    | true =>
      simpa [onAttach] using
        foldl_portForward_shareServerCalls (some a) h s.fowardedPorts
          { s with registeredHandlers := s.registeredHandlers ++ remoteCommandNames }

/-- A host state with port 8888 recorded while not hosting (null api). -/
def sRecorded0 : HostState := (portForwardServer none 8888 HostState.init).1

/-- Witness for the amended C1: with port 8888 recorded while not hosting,
an attach with an active Host api issues the `shareServer` call for it. -/
theorem onAttach_reshares_recorded_ports_witness :
    (onDetach sRecorded0).fowardedPorts = [] ∧
    (onAttach apiHost0 true sRecorded0).shareServerCalls =
      sRecorded0.shareServerCalls ++ sRecorded0.fowardedPorts :=
  onAttach_reshares_recorded_ports apiHost0 true sRecorded0 rfl

/-! ## C9: peer lists only hold other-role peers -/

/-- `onPeerConnected` never changes the instance's identity or role. -/
theorem onPeerConnected_id_role (g : MockInstance) (pid : Nat) (r : Role) :
    (g.onPeerConnected pid r).instId = g.instId ∧
    (g.onPeerConnected pid r).role = g.role := by
  by_cases hr : r = g.role <;> simp [MockInstance.onPeerConnected, hr]

/-- Constructing a new `MockLiveShare` preserves the peer invariant. -/
theorem inv_newMockLiveShare (w : MockWorld) (r : Role) (h : w.Inv) :
    (w.newMockLiveShare r).Inv := by
  obtain ⟨hIds, hPeers⟩ := h
  constructor
  · intro inst hinst
    simp only [MockWorld.newMockLiveShare, List.mem_map, List.mem_append,
      List.mem_singleton] at hinst
    obtain ⟨g, hg, rfl⟩ := hinst
    rw [show (w.newMockLiveShare r).nextId = w.nextId + 1 from rfl,
      (onPeerConnected_id_role g w.nextId r).1]
    rcases hg with hg | rfl
    · exact Nat.lt_succ_of_lt (hIds g hg)
    · exact Nat.lt_succ_self _
  · intro inst hinst pr hpr
    simp only [MockWorld.newMockLiveShare, List.mem_map, List.mem_append,
      List.mem_singleton] at hinst
    obtain ⟨g, hg, rfl⟩ := hinst
    rw [(onPeerConnected_id_role g w.nextId r).1,
      (onPeerConnected_id_role g w.nextId r).2]
    by_cases hr : r = g.role
    · rw [show g.onPeerConnected w.nextId r = g by
        simp [MockInstance.onPeerConnected, hr]] at hpr
      rcases hg with hg | rfl
      · exact hPeers g hg pr hpr
      · simp at hpr
    · rw [show (g.onPeerConnected w.nextId r).currentPeers =
          g.currentPeers ++ [(w.nextId, r)] by
        simp [MockInstance.onPeerConnected, hr]] at hpr
      rcases List.mem_append.mp hpr with hold | hnew
      · rcases hg with hg | rfl
        · exact hPeers g hg pr hold
        · simp at hold
      · rw [List.mem_singleton] at hnew
        subst hnew
        rcases hg with hg | rfl
        · exact ⟨fun hcon => hr hcon, (Nat.ne_of_lt (hIds g hg)).symm⟩
        · exact absurd rfl hr
/-- Every world reachable by a sequence of `MockLiveShare` constructions
satisfies the peer invariant. -/
theorem mockWorld_inv_build (roles : List Role) : (MockWorld.build roles).Inv := by
  have hbase : MockWorld.empty.Inv := by
    constructor <;> intro inst hinst <;> simp [MockWorld.empty] at hinst
  have hfold : ∀ (l : List Role) (w : MockWorld), w.Inv →
      (l.foldl MockWorld.newMockLiveShare w).Inv := by
    intro l
    induction l with
    | nil => exact fun w hw => hw
    | cons r rest ih =>
      intro w hw
      exact ih _ (inv_newMockLiveShare w r hw)
  exact hfold roles MockWorld.empty hbase

/-- C9: `onPeerConnected` leaves the instance untouched when the connecting
peer's role equals its own (no peer added, no peers-changed event fired), and
every peer in any reachable instance's peer list has a different role and a
different identity than its owner: an instance never holds itself or a
same-role instance among its peers. -/
theorem mockLiveShare_peers_other_role (roles : List Role) :
    (∀ g : MockInstance, ∀ pid : Nat, ∀ prole : Role, prole = g.role →
      g.onPeerConnected pid prole = g) ∧
    (∀ inst ∈ (MockWorld.build roles).others, ∀ pr ∈ inst.currentPeers,
      pr.2 ≠ inst.role ∧ pr.1 ≠ inst.instId) := by
  constructor
  · intro g pid prole h
    simp [MockInstance.onPeerConnected, h]
  · intro inst hinst pr hpr
    exact (mockWorld_inv_build roles).2 inst hinst pr hpr

/-- Witness for C9: in the world built by constructing a Host then a Guest,
the Host instance lists the Guest as a peer, and that peer's role and
identity differ from the Host's own. -/
theorem mockLiveShare_peers_other_role_witness :
    ((1 : Nat), Role.Guest).2 ≠ (MockInstance.mk 0 Role.Host [(1, Role.Guest)] 1).role ∧
    ((1 : Nat), Role.Guest).1 ≠ (MockInstance.mk 0 Role.Host [(1, Role.Guest)] 1).instId :=
  (mockLiveShare_peers_other_role [Role.Host, Role.Guest]).2
    ⟨0, Role.Host, [(1, Role.Guest)], 1⟩ (by decide) (1, Role.Guest) (by decide)

end VSP
